import Mathlib

/-!
Shallow embedding of the MessagingUtilities Go library
(`MessagingUtilities.go` and its unnamed variant source file).

The library exposes three stateless sender functions: an SMTP email
sender, a Twilio SMS sender, and an Africa's Talking SMS sender (the
variant file carries a second Africa's Talking sender with a
comma-in-receiver guard and a recipient-list response check).

Modelling conventions:
* Go `*T` pointer arguments become `Option T`; dereferencing a `nil`
  pointer is a crash, modelled by a dedicated `crash` outcome.
* The single outbound HTTP exchange of the Africa's Talking senders is
  an oracle argument `HttpOutcome`: either a transport error or a
  response carrying a status code and a raw body string.
* Outcomes record whether the network call was issued and whether the
  response body was closed, so that "zero network calls" and
  "body released on every exit path" are statable.
* `encoding/json` decoding is embedded by a fueled JSON parser over
  `List Char` followed by a struct-unmarshal step mirroring Go's
  semantics for the two response struct shapes (unknown fields ignored,
  case-insensitive key fallback, unexported fields never set,
  type mismatches are errors, trailing input after the first value
  is not an error for `Decoder.Decode`).
-/

/-- A parsed JSON value. Numbers are kept as their source text: the
library never reads a numeric value. -/
inductive Json where
  | null : Json
  | bool (b : Bool) : Json
  | num (text : String) : Json
  | str (s : String) : Json
  | arr (elems : List Json) : Json
  | obj (fields : List (String × Json)) : Json

/-- Skip JSON whitespace. -/
def skipWs : List Char → List Char
  | c :: rest =>
    if c = ' ' ∨ c = '\t' ∨ c = '\n' ∨ c = '\r' then skipWs rest else c :: rest
  | [] => []

/-- Hexadecimal digit value, if any. -/
def hexVal (c : Char) : Option Nat :=
  if c.isDigit then some (c.toNat - '0'.toNat)
  else if 'a' ≤ c ∧ c ≤ 'f' then some (c.toNat - 'a'.toNat + 10)
  else if 'A' ≤ c ∧ c ≤ 'F' then some (c.toNat - 'A'.toNat + 10)
  else none

/-- Translate a single-character JSON escape (the character after the
backslash). `none` means the escape is invalid. -/
def jsonEscape (c : Char) : Option Char :=
  if c = '\x22' ∨ c = '\\' ∨ c = '/' then some c
  else if c = 'b' then some '\x08'
  else if c = 'f' then some '\x0c'
  else if c = 'n' then some '\n'
  else if c = 'r' then some '\r'
  else if c = 't' then some '\t'
  else none

/-- Parse the characters of a JSON string after the opening quote,
returning the decoded characters and the rest of the input. -/
def parseStringChars : List Char → Except String (List Char × List Char)
  | [] => .error "unexpected end of JSON string"
  | c :: rest =>
    if c = '\x22' then .ok ([], rest)
    else if c = '\\' then
      match rest with
      | [] => .error "unexpected end of JSON escape"
      | 'u' :: h1 :: h2 :: h3 :: h4 :: rest2 =>
        match hexVal h1, hexVal h2, hexVal h3, hexVal h4 with
        | some v1, some v2, some v3, some v4 => do
          let (cs, rem) ← parseStringChars rest2
          .ok (Char.ofNat (((v1 * 16 + v2) * 16 + v3) * 16 + v4) :: cs, rem)
        | _, _, _, _ => .error "invalid unicode escape in JSON string"
      | e :: rest2 =>
        match jsonEscape e with
        | some ec => do
          let (cs, rem) ← parseStringChars rest2
          .ok (ec :: cs, rem)
        | none => .error "invalid escape character in JSON string"
    else do
      let (cs, rem) ← parseStringChars rest
      .ok (c :: cs, rem)

/-- Characters that may appear in a JSON number token. -/
def isNumChar (c : Char) : Bool :=
  c.isDigit || c = '-' || c = '+' || c = '.' || c = 'e' || c = 'E'

mutual

/-- Parse one JSON value. The fuel bounds recursion depth; each
recursive descent consumes at least one input character, so an initial
fuel of `length + 1` always suffices. -/
def parseValue : Nat → List Char → Except String (Json × List Char)
  | 0, _ => .error "JSON nesting too deep"
  | fuel + 1, s =>
    match skipWs s with
    | [] => .error "unexpected end of JSON input"
    | c :: rest =>
      if c = '\x7b' then
        match skipWs rest with
        | '\x7d' :: rest2 => .ok (.obj [], rest2)
        | rest2 => do
          let (fields, rem) ← parseMembers fuel rest2
          .ok (.obj fields, rem)
      else if c = '[' then
        match skipWs rest with
        | ']' :: rest2 => .ok (.arr [], rest2)
        | rest2 => do
          let (elems, rem) ← parseElements fuel rest2
          .ok (.arr elems, rem)
      else if c = '\x22' then do
        let (cs, rem) ← parseStringChars rest
        .ok (.str (String.mk cs), rem)
      else if c = 't' then
        if ['r', 'u', 'e'].isPrefixOf rest then .ok (.bool true, rest.drop 3)
        else .error "invalid JSON literal"
      else if c = 'f' then
        if ['a', 'l', 's', 'e'].isPrefixOf rest then .ok (.bool false, rest.drop 4)
        else .error "invalid JSON literal"
      else if c = 'n' then
        if ['u', 'l', 'l'].isPrefixOf rest then .ok (.null, rest.drop 3)
        else .error "invalid JSON literal"
      else if c.isDigit ∨ c = '-' then
        let numToken := (c :: rest).takeWhile isNumChar
        .ok (.num (String.mk numToken), (c :: rest).dropWhile isNumChar)
      else .error "invalid character looking for beginning of value"

/-- Parse the members of a JSON object after the opening brace, when
the object is not empty. -/
def parseMembers : Nat → List Char → Except String (List (String × Json) × List Char)
  | 0, _ => .error "JSON nesting too deep"
  | fuel + 1, s =>
    match skipWs s with
    | '\x22' :: rest => do
      let (keyCs, rest2) ← parseStringChars rest
      match skipWs rest2 with
      | ':' :: rest3 => do
        let (v, rest4) ← parseValue fuel rest3
        match skipWs rest4 with
        | ',' :: rest5 => do
          let (fields, rem) ← parseMembers fuel rest5
          .ok ((String.mk keyCs, v) :: fields, rem)
        | '\x7d' :: rest5 => .ok ([(String.mk keyCs, v)], rest5)
        | _ => .error "expected comma or closing brace after object member"
      | _ => .error "expected colon after object key"
    | _ => .error "expected string key in object"

/-- Parse the elements of a JSON array after the opening bracket, when
the array is not empty. -/
def parseElements : Nat → List Char → Except String (List Json × List Char)
  | 0, _ => .error "JSON nesting too deep"
  | fuel + 1, s => do
    let (v, rest) ← parseValue fuel s
    match skipWs rest with
    | ',' :: rest2 => do
      let (elems, rem) ← parseElements fuel rest2
      .ok (v :: elems, rem)
    | ']' :: rest2 => .ok ([v], rest2)
    | _ => .error "expected comma or closing bracket after array element"

end

/-- Read one JSON value from a body string, as `json.Decoder.Decode`
does: input after the first complete value is ignored, not an error. -/
def goJsonDecode (body : String) : Except String Json := do
  let (v, _) ← parseValue (body.length + 1) body.data
  .ok v

/-- Go `encoding/json` field matching: an exact key match, with a
case-insensitive fallback. -/
def goKeyMatch (key field : String) : Bool :=
  key == field || key.toLower == field.toLower

/-- The decoded Africa's Talking response body of the main source file:
`SMSMessageData.Message`, a human-readable status text. -/
structure atSmsMessageData where
  Message : String
deriving Repr, DecidableEq

/-- Go struct `atSmsResponse` of the main source file. -/
structure atSmsResponse where
  SMSMessageData : atSmsMessageData
deriving Repr, DecidableEq

/-- Unmarshal a JSON value into `atSmsMessageData`, mirroring Go:
the value must be an object (or null, leaving the zero value); fields
are processed in order, unknown keys are ignored, a present `Message`
must be a string (null leaves the previous value). -/
def unmarshalAtSmsMessageData (v : Json) (z : atSmsMessageData) :
    Except String atSmsMessageData :=
  match v with
  | .null => .ok z
  | .obj fields =>
    fields.foldlM
      (fun acc kv =>
        if goKeyMatch kv.1 "Message" then
          match kv.2 with
          | .str s => .ok { acc with Message := s }
          | .null => .ok acc
          | _ => .error "cannot unmarshal value into field Message of type string"
        else .ok acc)
      z
  | _ => .error "cannot unmarshal value into struct SMSMessageData"

/-- Unmarshal a JSON value into `atSmsResponse`, mirroring Go struct
decoding of the main source file. -/
def unmarshalAtSmsResponse (v : Json) (z : atSmsResponse) :
    Except String atSmsResponse :=
  match v with
  | .null => .ok z
  | .obj fields =>
    fields.foldlM
      (fun acc kv =>
        if goKeyMatch kv.1 "SMSMessageData" then do
          let d ← unmarshalAtSmsMessageData kv.2 acc.SMSMessageData
          .ok { acc with SMSMessageData := d }
        else .ok acc)
      z
  | _ => .error "cannot unmarshal value into struct atSmsResponse"

/-- `json.NewDecoder(resp.Body).Decode(&atResp)` of the main source
file: parse one JSON value from the body and unmarshal it into the
zero-valued `atSmsResponse`. -/
def decodeAtResponse (body : String) : Except String atSmsResponse := do
  let v ← goJsonDecode body
  unmarshalAtSmsResponse v ⟨⟨""⟩⟩

/-- Go `strings.Contains(s, substr)`: some suffix of `s` starts with
`substr`. -/
def goStringsContains (s substr : String) : Bool :=
  (List.range (s.data.length + 1)).any
    (fun i => substr.data.isPrefixOf (s.data.drop i))

/-- Go `strconv.Atoi`: an optional sign followed by at least one
decimal digit (machine-range overflow is not modelled; no claim
depends on it). -/
def goAtoi (s : String) : Option Int :=
  match s.data with
  | [] => none
  | c :: rest =>
    let signed : Bool × List Char :=
      if c = '-' then (true, rest)
      else if c = '+' then (false, rest)
      else (false, c :: rest)
    match signed with
    | (neg, digits) =>
      if digits = [] then none
      else if digits.all Char.isDigit then
        let n : Nat := digits.foldl (fun acc d => acc * 10 + (d.toNat - '0'.toNat)) 0
        some (if neg then -(n : Int) else (n : Int))
      else none

/-- `SMTPCredentials` of the source. -/
structure SMTPCredentials where
  Host : String
  Port : String
  User : String
  Sender : String
  Password : String
  UseTLS : Bool
deriving Repr, DecidableEq

/-- `EmailAttachment` of the source: the `io.Reader` is modelled by
the byte sequence it yields; the display name is a possibly-nil
pointer. -/
structure EmailAttachment where
  Data : List Nat
  Name : Option String
deriving Repr, DecidableEq

/-- One attachment as it ends up inside the built gomail message. -/
structure MailAttachment where
  name : String
  contentType : String
  content : List Nat
deriving Repr, DecidableEq

/-- The gomail message built by `SendSMTPEmailMessage` before dialing:
headers, optional subject, optional body (MIME type and text), and
attachments. -/
structure MailMessage where
  FromHeader : String
  ToHeader : List String
  SubjectHeader : Option String
  BodyPart : Option (String × String)
  Attachments : List MailAttachment
deriving Repr, DecidableEq

/-- Outcome of `SendSMTPEmailMessage`: a nil-pointer crash, the
invalid-port configuration error, or reaching `dialer.DialAndSend`
with the built message (the SMTP transaction itself is external). -/
inductive SMTPOutcome where
  | crash : SMTPOutcome
  | configError (msg : String) : SMTPOutcome
  | dialAndSend (host : String) (port : Int) (user password : String)
      (message : MailMessage) : SMTPOutcome
deriving Repr, DecidableEq

/-- The attachment loop of `SendSMTPEmailMessage`: each entry's `Name`
pointer is dereferenced (`none` crashes), the content type is fixed to
application/octet-stream, and the copy function streams the source
bytes unchanged. -/
def buildAttachments : List EmailAttachment → Option (List MailAttachment)
  | [] => some []
  | a :: rest =>
    match a.Name with
    | none => none
    | some n =>
      (buildAttachments rest).map (fun l => ⟨n, "application/octet-stream", a.Data⟩ :: l)

/-- `SendSMTPEmailMessage` of the source, step for step: build the
message (dereferencing `*receivers` and each `*reader.Name`
unconditionally), then parse the port, then dial. -/
def SendSMTPEmailMessage (credentials : SMTPCredentials)
    (subject message : Option String) (isHtml : Bool)
    (attachments : Option (List EmailAttachment))
    (receivers : Option (List String)) : SMTPOutcome :=
  match receivers with
  | none => .crash
  | some rcvs =>
    let mimeType := if isHtml then "text/html" else "text/plain"
    let atts :=
      match attachments with
      | none => some []
      | some l => buildAttachments l
    match atts with
    | none => .crash
    | some atts =>
      match goAtoi credentials.Port with
      | none =>
        .configError ("Invalid port number: strconv.Atoi: parsing \x22"
          ++ credentials.Port ++ "\x22: invalid syntax")
      | some port =>
        .dialAndSend credentials.Host port credentials.User credentials.Password
          { FromHeader := credentials.Sender
            ToHeader := rcvs
            SubjectHeader := subject
            BodyPart := message.map (fun m => (mimeType, m))
            Attachments := atts }

/-- `TwilioCredentials` of the source. -/
structure TwilioCredentials where
  AccountSID : String
  AuthToken : String
  SenderPhoneNumber : String
  SenderName : String
deriving Repr, DecidableEq

/-- Outcome of `SendTwilioSmsMessage`: a nil-pointer crash, the
validation error returned before the API call, or the issued
message-create request (whose provider-side result is external and
returned as-is). -/
inductive TwilioOutcome where
  | crash : TwilioOutcome
  | validationError (msg : String) : TwilioOutcome
  | createMessage (body fromNumber toNumber : String) : TwilioOutcome
deriving Repr, DecidableEq

/-- `SendTwilioSmsMessage` of the source: the REST client value is
constructed locally (no network), a nil message returns the validation
error, then `*receiver` is dereferenced while building the params and
one `CreateMessage` request is issued. -/
def SendTwilioSmsMessage (credentials : TwilioCredentials)
    (message receiver : Option String) : TwilioOutcome :=
  match message with
  | none => .validationError "Message body and receivers cannot be empty"
  | some m =>
    match receiver with
    | none => .crash
    | some r => .createMessage m credentials.SenderPhoneNumber r

/-- `AfricasTalkingCredentials` of the source. -/
structure AfricasTalkingCredentials where
  ApiKey : String
  Username : String
  SenderID : String
deriving Repr, DecidableEq

/-- The outcome of the one `client.Do` call, supplied as an oracle:
either a transport-level error or a response with status code and raw
body text. -/
inductive HttpOutcome where
  | transportError (e : String) : HttpOutcome
  | response (status : Nat) (body : String) : HttpOutcome
deriving Repr, DecidableEq

/-- The error paths of `SendAfricasTalkingSmsMessage` in the main
source file, one constructor per `fmt.Errorf` site that is reachable
(JSON marshalling of the payload struct and request construction for
the fixed URL cannot fail and have no constructor). -/
inductive ATError where
  | missingBody : ATError
  | transportFailed (e : String) : ATError
  | apiFailed (status : Nat) (body : String) : ATError
  | parseFailed (e : String) : ATError
  | logicalFailure (statusText : String) : ATError
deriving Repr, DecidableEq

/-- Render an `ATError` to the exact Go error message. -/
def renderATError : ATError → String
  | .missingBody => "Message body cannot be empty"
  | .transportFailed e => "Failed to execute http request: " ++ e
  | .apiFailed status body =>
    "Africa\x27s talking API failed with status " ++ toString status
      ++ ". Response body: " ++ body
  | .parseFailed e => "Successfully sent, but failed to parse response: " ++ e
  | .logicalFailure t =>
    "africa\x27s talking send likely failed. Check API key\x2fusername. Response: " ++ t

/-- Outcome of an Africa's Talking sender: a nil-pointer crash, or a
return value together with whether the HTTP request was issued and
whether the response body was closed. -/
inductive ATOutcome (ε : Type) where
  | crash : ATOutcome ε
  | done (requested bodyClosed : Bool) (result : Except ε Unit) : ATOutcome ε
deriving Repr

/-- `SendAfricasTalkingSmsMessage` of the main source file: nil
message check, payload build (dereferencing `*receiver`), one HTTP
POST, `defer resp.Body.Close()`, status check, JSON decode, and the
`Total Cost: KES 0.00` disguised-failure heuristic. -/
def SendAfricasTalkingSmsMessage (credentials : AfricasTalkingCredentials)
    (message receiver : Option String) (net : HttpOutcome) : ATOutcome ATError :=
  match message with
  | none => .done false false (.error .missingBody)
  | some _m =>
    match receiver with
    | none => .crash
    | some _rv =>
      match net with
      | .transportError e => .done true false (.error (.transportFailed e))
      | .response status body =>
        if status ≠ 201 ∧ status ≠ 200 then
          .done true true (.error (.apiFailed status body))
        else
          match decodeAtResponse body with
          | .error e => .done true true (.error (.parseFailed e))
          | .ok atResp =>
            if goStringsContains atResp.SMSMessageData.Message "Total Cost: KES 0.00" then
              .done true true (.error (.logicalFailure atResp.SMSMessageData.Message))
            else
              .done true true (.ok ())

namespace Variant

/-- `atSmsResponseRecipient` of the variant source file. Its only
field, `status`, is unexported (lower-case) in Go, so `encoding/json`
never assigns to it: decoding leaves it at the zero value `""`. -/
structure atSmsResponseRecipient where
  status : String
deriving Repr, DecidableEq

/-- The nested `SMSMessageData` struct of the variant source file:
a status message and a recipient list. -/
structure atSmsMessageData where
  Message : String
  Recipients : List atSmsResponseRecipient
deriving Repr, DecidableEq

/-- Go struct `atSmsResponse` of the variant source file. -/
structure atSmsResponse where
  SMSMessageData : atSmsMessageData
deriving Repr, DecidableEq

/-- Unmarshal one JSON array element into `atSmsResponseRecipient`:
the element must be an object or null; the unexported `status` field
is never assigned, so the result is always the zero value. -/
def unmarshalRecipient (v : Json) : Except String atSmsResponseRecipient :=
  match v with
  | .null => .ok ⟨""⟩
  | .obj _ => .ok ⟨""⟩
  | _ => .error "cannot unmarshal value into struct atSmsResponseRecipient"

/-- Unmarshal a JSON value into the variant `atSmsMessageData`:
`Message` must be a string, `Recipients` must be an array of
recipient objects; unknown keys are ignored. -/
def unmarshalAtSmsMessageData (v : Json) (z : atSmsMessageData) :
    Except String atSmsMessageData :=
  match v with
  | .null => .ok z
  | .obj fields =>
    fields.foldlM
      (fun acc kv =>
        if goKeyMatch kv.1 "Message" then
          match kv.2 with
          | .str s => .ok { acc with Message := s }
          | .null => .ok acc
          | _ => .error "cannot unmarshal value into field Message of type string"
        else if goKeyMatch kv.1 "Recipients" then
          match kv.2 with
          | .arr elems => do
            let rs ← elems.mapM unmarshalRecipient
            .ok { acc with Recipients := rs }
          | .null => .ok acc
          | _ => .error "cannot unmarshal value into field Recipients of type slice"
        else .ok acc)
      z
  | _ => .error "cannot unmarshal value into struct SMSMessageData"

/-- Unmarshal a JSON value into the variant `atSmsResponse`. -/
def unmarshalAtSmsResponse (v : Json) (z : atSmsResponse) :
    Except String atSmsResponse :=
  match v with
  | .null => .ok z
  | .obj fields =>
    fields.foldlM
      (fun acc kv =>
        if goKeyMatch kv.1 "SMSMessageData" then do
          let d ← unmarshalAtSmsMessageData kv.2 acc.SMSMessageData
          .ok { acc with SMSMessageData := d }
        else .ok acc)
      z
  | _ => .error "cannot unmarshal value into struct atSmsResponse"

/-- The variant file's `json.NewDecoder(resp.Body).Decode(&atResp)`. -/
def decodeAtResponse (body : String) : Except String atSmsResponse := do
  let v ← goJsonDecode body
  unmarshalAtSmsResponse v ⟨⟨"", []⟩⟩

/-- The error paths of the variant `SendAfricasTalkingSmsMessage`,
one constructor per reachable `fmt.Errorf` site. -/
inductive ATError where
  | missingBody : ATError
  | multipleReceivers : ATError
  | transportFailed (e : String) : ATError
  | apiFailed (status : Nat) (body : String) : ATError
  | parseFailed (e : String) : ATError
  | recipientCountNotOne : ATError
  | recipientStatusNonEmpty : ATError
deriving Repr, DecidableEq

/-- Render a variant `ATError` to the exact Go error message. -/
def renderATError : ATError → String
  | .missingBody => "Message body cannot be empty"
  | .multipleReceivers => "Multiple receivers may hav been passed"
  | .transportFailed e => "Failed to execute http request: " ++ e
  | .apiFailed status body =>
    "Africa\x27s talking API failed with status " ++ toString status
      ++ ". Response body: " ++ body
  | .parseFailed e => "Successfully sent, but failed to parse response: " ++ e
  | .recipientCountNotOne => "Sent recipient list is empty."
  | .recipientStatusNonEmpty => "Message could not be sent"

/-- `SendAfricasTalkingSmsMessage` of the variant source file: nil
message check, comma-in-receiver guard (dereferencing `*receiver`),
form-encoded POST, `defer resp.Body.Close()`, status check, JSON
decode, recipient-count check, and the per-recipient status loop. -/
def SendAfricasTalkingSmsMessage (credentials : AfricasTalkingCredentials)
    (message receiver : Option String) (net : HttpOutcome) : ATOutcome ATError :=
  match message with
  | none => .done false false (.error .missingBody)
  | some _m =>
    match receiver with
    | none => .crash
    | some rv =>
      if goStringsContains rv "," then
        .done false false (.error .multipleReceivers)
      else
        match net with
        | .transportError e => .done true false (.error (.transportFailed e))
        | .response status body =>
          if status ≠ 201 ∧ status ≠ 200 then
            .done true true (.error (.apiFailed status body))
          else
            match decodeAtResponse body with
            | .error e => .done true true (.error (.parseFailed e))
            | .ok atResp =>
              if atResp.SMSMessageData.Recipients.length ≠ 1 then
                .done true true (.error .recipientCountNotOne)
              else if atResp.SMSMessageData.Recipients.any (fun r => r.status ≠ "") then
                .done true true (.error .recipientStatusNonEmpty)
              else
                .done true true (.ok ())

end Variant

/-- `goStringsContains s t` holds exactly when `t`'s characters occur
contiguously inside `s`'s characters. -/
theorem goStringsContains_iff (s t : String) :
    goStringsContains s t = true ↔ ∃ x y, s.data = x ++ t.data ++ y := by
  unfold goStringsContains
  rw [List.any_eq_true]
  constructor
  · rintro ⟨i, hi, hpre⟩
    rw [List.isPrefixOf_iff_prefix] at hpre
    obtain ⟨y, hy⟩ := hpre
    exact ⟨s.data.take i, y, by
      conv_lhs => rw [← List.take_append_drop i s.data]
      rw [← hy, List.append_assoc]⟩
  · rintro ⟨x, y, h⟩
    refine ⟨x.length, ?_, ?_⟩
    · rw [List.mem_range, Nat.lt_succ_iff, h]
      simp [List.length_append]
    · rw [List.isPrefixOf_iff_prefix, h, List.append_assoc, List.drop_left]
      exact ⟨y, rfl⟩

/-- The attachment loop crashes (on a nil `Name` pointer) exactly when
some supplied attachment has an absent name. -/
theorem buildAttachments_eq_none_iff (l : List EmailAttachment) :
    buildAttachments l = none ↔ ∃ a ∈ l, a.Name = none := by
  induction l with
  | nil => simp [buildAttachments]
  | cons a rest ih =>
    cases h : a.Name with
    | none => simp [buildAttachments, h]
    | some n => simp [buildAttachments, h, Option.map_eq_none', ih]

/-- C2: for every input with an absent (nil) message-body pointer, the
Twilio sender and both Africa's Talking senders return their validation
error and issue no network request (the Twilio outcome is the
validation error, not a `createMessage` request; the Africa's Talking
outcomes record `requested = false`). -/
theorem missing_body_validation_no_network (tc : TwilioCredentials)
    (ac ac2 : AfricasTalkingCredentials) (receiver receiver2 receiver3 : Option String)
    (net net2 : HttpOutcome) :
    SendTwilioSmsMessage tc none receiver
      = .validationError "Message body and receivers cannot be empty"
    ∧ SendAfricasTalkingSmsMessage ac none receiver2 net
      = .done false false (.error .missingBody)
    ∧ Variant.SendAfricasTalkingSmsMessage ac2 none receiver3 net2
      = .done false false (.error .missingBody) :=
  ⟨rfl, rfl, rfl⟩

/-- C3 (evaluation at the failing input): with a present message body
and a nil receiver pointer, the Twilio sender and both Africa's Talking
senders dereference the nil receiver and crash instead of returning a
validation error; no network request is issued before the crash. -/
theorem nil_receiver_crashes :
    SendTwilioSmsMessage ⟨"SID", "token", "+15550100", "Me"⟩ (some "hello") none = .crash
    ∧ SendAfricasTalkingSmsMessage ⟨"key", "user", "sid"⟩ (some "hello") none
        (.response 200 "") = .crash
    ∧ Variant.SendAfricasTalkingSmsMessage ⟨"key", "user", "sid"⟩ (some "hello") none
        (.response 200 "") = .crash :=
  ⟨rfl, rfl, rfl⟩

/-- C8: whenever the Africa's Talking sender obtains an HTTP response
(message and receiver present, oracle yields a response), every exit
path — provider rejection, decode failure, logical failure, and
success — returns with the response body closed. -/
theorem at_body_closed_on_every_path (credentials : AfricasTalkingCredentials)
    (m rv : String) (status : Nat) (body : String) :
    ∃ result, SendAfricasTalkingSmsMessage credentials (some m) (some rv)
      (.response status body) = .done true true result := by
  simp only [SendAfricasTalkingSmsMessage]
  split
  · exact ⟨_, rfl⟩
  · split
    · exact ⟨_, rfl⟩
    · split
      · exact ⟨_, rfl⟩
      · exact ⟨_, rfl⟩

/-- C10: the variant Africa's Talking sender rejects a present message
with a comma-containing receiver string before any network call. -/
theorem variant_comma_receiver_rejected (credentials : AfricasTalkingCredentials)
    (m rv : String) (net : HttpOutcome) (h : goStringsContains rv "," = true) :
    Variant.SendAfricasTalkingSmsMessage credentials (some m) (some rv) net
      = .done false false (.error .multipleReceivers) := by
  simp [Variant.SendAfricasTalkingSmsMessage, h]

/-- Witness for C10 at the concrete receiver string `"a,b"`. -/
theorem variant_comma_receiver_rejected_witness :
    Variant.SendAfricasTalkingSmsMessage ⟨"key", "user", "sid"⟩ (some "hello") (some "a,b")
        (.response 201 "")
      = .done false false (.error .multipleReceivers) :=
  variant_comma_receiver_rejected ⟨"key", "user", "sid"⟩ "hello" "a,b"
    (.response 201 "") (by decide)

/-- C1: with a present message body, an HTTP status of 200 or 201, and
a body that decodes into the expected shape, the Africa's Talking
sender returns the logical-failure error — whose rendered text contains
the raw decoded status text — exactly when the decoded status text
contains the substring "Total Cost: KES 0.00"; otherwise it returns
success. -/
theorem at_cost_marker_heuristic (credentials : AfricasTalkingCredentials)
    (m rv : String) (status : Nat) (body : String) (r : atSmsResponse)
    (hst : status = 200 ∨ status = 201)
    (hdec : decodeAtResponse body = .ok r) :
    (goStringsContains r.SMSMessageData.Message "Total Cost: KES 0.00" = true →
      SendAfricasTalkingSmsMessage credentials (some m) (some rv) (.response status body)
        = .done true true (.error (.logicalFailure r.SMSMessageData.Message))
      ∧ goStringsContains (renderATError (.logicalFailure r.SMSMessageData.Message))
          r.SMSMessageData.Message = true)
    ∧ (goStringsContains r.SMSMessageData.Message "Total Cost: KES 0.00" = false →
      SendAfricasTalkingSmsMessage credentials (some m) (some rv) (.response status body)
        = .done true true (.ok ())) := by
  have hcond : ¬(status ≠ 201 ∧ status ≠ 200) := by
    rcases hst with h | h <;> simp [h]
  constructor
  · intro hc
    constructor
    · simp [SendAfricasTalkingSmsMessage, hcond, hdec, hc]
    · rw [goStringsContains_iff]
      exact ⟨("africa\x27s talking send likely failed. Check API key\x2fusername. Response: ").data,
        [], by simp [renderATError, String.data_append]⟩
  · intro hc
    simp [SendAfricasTalkingSmsMessage, hcond, hdec, hc]

/-- Witness for C1: the spec's two examples. With HTTP 200 and status
text "Sent to 1/1 Total Cost: KES 0.00" the sender fails logically;
with HTTP 201 and status text "Sent to 1/1 Total Cost: KES 1.50" it
succeeds. -/
theorem at_cost_marker_heuristic_witness :
    SendAfricasTalkingSmsMessage ⟨"key", "user", "sid"⟩ (some "Hello") (some "+254700000001")
        (.response 200
          "\x7b\x22SMSMessageData\x22:\x7b\x22Message\x22:\x22Sent to 1/1 Total Cost: KES 0.00\x22\x7d\x7d")
      = .done true true (.error (.logicalFailure "Sent to 1/1 Total Cost: KES 0.00"))
    ∧ SendAfricasTalkingSmsMessage ⟨"key", "user", "sid"⟩ (some "Hello") (some "+254700000001")
        (.response 201
          "\x7b\x22SMSMessageData\x22:\x7b\x22Message\x22:\x22Sent to 1/1 Total Cost: KES 1.50\x22\x7d\x7d")
      = .done true true (.ok ()) :=
  ⟨((at_cost_marker_heuristic ⟨"key", "user", "sid"⟩ "Hello" "+254700000001" 200
      "\x7b\x22SMSMessageData\x22:\x7b\x22Message\x22:\x22Sent to 1/1 Total Cost: KES 0.00\x22\x7d\x7d"
      ⟨⟨"Sent to 1/1 Total Cost: KES 0.00"⟩⟩ (Or.inl rfl) (by rfl)).1 (by decide)).1,
   (at_cost_marker_heuristic ⟨"key", "user", "sid"⟩ "Hello" "+254700000001" 201
      "\x7b\x22SMSMessageData\x22:\x7b\x22Message\x22:\x22Sent to 1/1 Total Cost: KES 1.50\x22\x7d\x7d"
      ⟨⟨"Sent to 1/1 Total Cost: KES 1.50"⟩⟩ (Or.inr rfl) (by rfl)).2 (by decide)⟩

/-- C4: with a present message body and an HTTP status that is neither
200 nor 201, the Africa's Talking sender returns the provider-rejection
error, whose rendered text contains both the numeric status code and
the raw response body text. -/
theorem at_provider_rejection (credentials : AfricasTalkingCredentials)
    (m rv : String) (status : Nat) (body : String)
    (hst : ¬(status = 200 ∨ status = 201)) :
    SendAfricasTalkingSmsMessage credentials (some m) (some rv) (.response status body)
      = .done true true (.error (.apiFailed status body))
    ∧ goStringsContains (renderATError (.apiFailed status body)) (toString status) = true
    ∧ goStringsContains (renderATError (.apiFailed status body)) body = true := by
  push_neg at hst
  refine ⟨?_, ?_, ?_⟩
  · simp only [SendAfricasTalkingSmsMessage]
    rw [if_pos ⟨hst.2, hst.1⟩]
  · rw [goStringsContains_iff]
    exact ⟨("Africa\x27s talking API failed with status ").data,
      (". Response body: " ++ body).data,
      by simp [renderATError, String.data_append]⟩
  · rw [goStringsContains_iff]
    exact ⟨("Africa\x27s talking API failed with status " ++ toString status
        ++ ". Response body: ").data, [],
      by simp [renderATError, String.data_append]⟩

/-- Witness for C4: the spec's example, HTTP 401 with body
"Invalid apiKey". -/
theorem at_provider_rejection_witness :
    SendAfricasTalkingSmsMessage ⟨"key", "user", "sid"⟩ (some "Hello") (some "+254700000001")
        (.response 401 "Invalid apiKey")
      = .done true true (.error (.apiFailed 401 "Invalid apiKey"))
    ∧ goStringsContains (renderATError (.apiFailed 401 "Invalid apiKey")) "401" = true
    ∧ goStringsContains (renderATError (.apiFailed 401 "Invalid apiKey")) "Invalid apiKey" = true :=
  at_provider_rejection ⟨"key", "user", "sid"⟩ "Hello" "+254700000001" 401 "Invalid apiKey"
    (by decide)

/-- C5: with a present message body, an HTTP status of 200 or 201, and
a body that fails to decode, the Africa's Talking sender returns the
ambiguous-outcome error: a result distinct from success and from every
logical-failure error, whose rendered text says the send happened but
could not be confirmed. -/
theorem at_ambiguous_decode_failure (credentials : AfricasTalkingCredentials)
    (m rv : String) (status : Nat) (body e : String)
    (hst : status = 200 ∨ status = 201)
    (hdec : decodeAtResponse body = .error e) :
    SendAfricasTalkingSmsMessage credentials (some m) (some rv) (.response status body)
      = .done true true (.error (.parseFailed e))
    ∧ (Except.error (ATError.parseFailed e) ≠ (Except.ok () : Except ATError Unit))
    ∧ (∀ t, ATError.parseFailed e ≠ ATError.logicalFailure t)
    ∧ renderATError (.parseFailed e)
      = "Successfully sent, but failed to parse response: " ++ e := by
  have hcond : ¬(status ≠ 201 ∧ status ≠ 200) := by
    rcases hst with h | h <;> simp [h]
  refine ⟨?_, by simp, fun t => by simp, rfl⟩
  simp [SendAfricasTalkingSmsMessage, hcond, hdec]

/-- Witness for C5: HTTP 200 with the unparseable body "not json". -/
theorem at_ambiguous_decode_failure_witness :
    SendAfricasTalkingSmsMessage ⟨"key", "user", "sid"⟩ (some "Hello") (some "+254700000001")
        (.response 200 "not json")
      = .done true true (.error (.parseFailed "invalid JSON literal"))
    ∧ (Except.error (ATError.parseFailed "invalid JSON literal")
        ≠ (Except.ok () : Except ATError Unit))
    ∧ (∀ t, ATError.parseFailed "invalid JSON literal" ≠ ATError.logicalFailure t)
    ∧ renderATError (.parseFailed "invalid JSON literal")
      = "Successfully sent, but failed to parse response: invalid JSON literal" :=
  at_ambiguous_decode_failure ⟨"key", "user", "sid"⟩ "Hello" "+254700000001" 200
    "not json" "invalid JSON literal" (Or.inl rfl) (by rfl)

/-- C6: for every SMTP credentials value whose Port string does not
parse as an integer (on a call that does not crash earlier: receivers
present and all attachment names present), the sender returns the
configuration error — whose text names the invalid port value — and
never reaches `DialAndSend`. -/
theorem smtp_invalid_port_config_error (credentials : SMTPCredentials)
    (subject message : Option String) (isHtml : Bool)
    (attachments : Option (List EmailAttachment)) (rcvs : List String)
    (atts : List MailAttachment)
    (hatts : buildAttachments (attachments.getD []) = some atts)
    (hport : goAtoi credentials.Port = none) :
    SendSMTPEmailMessage credentials subject message isHtml attachments (some rcvs)
      = .configError ("Invalid port number: strconv.Atoi: parsing \x22"
          ++ credentials.Port ++ "\x22: invalid syntax")
    ∧ goStringsContains
        ("Invalid port number: strconv.Atoi: parsing \x22"
          ++ credentials.Port ++ "\x22: invalid syntax") credentials.Port = true
    ∧ ∀ h p u pw mm,
        SendSMTPEmailMessage credentials subject message isHtml attachments (some rcvs)
          ≠ .dialAndSend h p u pw mm := by
  have heq : SendSMTPEmailMessage credentials subject message isHtml attachments (some rcvs)
      = .configError ("Invalid port number: strconv.Atoi: parsing \x22"
          ++ credentials.Port ++ "\x22: invalid syntax") := by
    cases attachments with
    | none => simp [SendSMTPEmailMessage, hport]
    | some l =>
      simp only [Option.getD] at hatts
      simp [SendSMTPEmailMessage, hatts, hport]
  refine ⟨heq, ?_, fun h p u pw mm => by rw [heq]; simp⟩
  rw [goStringsContains_iff]
  exact ⟨("Invalid port number: strconv.Atoi: parsing \x22").data,
    ("\x22: invalid syntax").data, by simp [String.data_append]⟩

/-- Witness for C6: port "abc" with no attachments and one receiver. -/
theorem smtp_invalid_port_config_error_witness :
    SendSMTPEmailMessage ⟨"smtp.example.com", "abc", "user", "me@example.com", "pw", false⟩
        none none false none (some ["a@b.example"])
      = .configError "Invalid port number: strconv.Atoi: parsing \x22abc\x22: invalid syntax"
    ∧ goStringsContains
        "Invalid port number: strconv.Atoi: parsing \x22abc\x22: invalid syntax" "abc" = true :=
  ⟨(smtp_invalid_port_config_error
      ⟨"smtp.example.com", "abc", "user", "me@example.com", "pw", false⟩
      none none false none ["a@b.example"] [] (by rfl) (by rfl)).1,
   (smtp_invalid_port_config_error
      ⟨"smtp.example.com", "abc", "user", "me@example.com", "pw", false⟩
      none none false none ["a@b.example"] [] (by rfl) (by rfl)).2.1⟩

/-- C7: a one-entry attachment list with a given display name and byte
content yields a built message whose single attachment carries exactly
that name, the fixed content type application/octet-stream, and byte
content equal to the source bytes. -/
theorem smtp_attachment_roundtrip (credentials : SMTPCredentials)
    (subject message : Option String) (isHtml : Bool)
    (nm : String) (contentBytes : List Nat) (rcvs : List String) (p : Int)
    (hport : goAtoi credentials.Port = some p) :
    ∃ mm, SendSMTPEmailMessage credentials subject message isHtml
        (some [⟨contentBytes, some nm⟩]) (some rcvs)
      = .dialAndSend credentials.Host p credentials.User credentials.Password mm
      ∧ mm.Attachments = [⟨nm, "application/octet-stream", contentBytes⟩] := by
  refine ⟨⟨credentials.Sender, rcvs, subject,
    message.map (fun m => (if isHtml then "text/html" else "text/plain", m)),
    [⟨nm, "application/octet-stream", contentBytes⟩]⟩, ?_, rfl⟩
  simp [SendSMTPEmailMessage, buildAttachments, hport]

/-- Witness for C7: a named attachment with bytes [1, 2, 3] on port
"25". -/
theorem smtp_attachment_roundtrip_witness :
    ∃ mm, SendSMTPEmailMessage
        ⟨"smtp.example.com", "25", "user", "me@example.com", "pw", false⟩
        none none false (some [⟨[1, 2, 3], some "report.bin"⟩]) (some ["a@b.example"])
      = .dialAndSend "smtp.example.com" 25 "user" "pw" mm
      ∧ mm.Attachments = [⟨"report.bin", "application/octet-stream", [1, 2, 3]⟩] :=
  smtp_attachment_roundtrip
    ⟨"smtp.example.com", "25", "user", "me@example.com", "pw", false⟩
    none none false "report.bin" [1, 2, 3] ["a@b.example"] 25 (by rfl)

/-- C9: the SMTP sender crashes (nil dereference, before any
validation) exactly when the receivers pointer is nil or some supplied
attachment has a nil Name pointer; a non-nil but empty recipient list
is accepted with no validation error and passed through to the dial
step as an empty To header. -/
theorem smtp_nil_deref_totality (credentials : SMTPCredentials)
    (subject message : Option String) (isHtml : Bool)
    (attachments : Option (List EmailAttachment)) (receivers : Option (List String)) :
    (SendSMTPEmailMessage credentials subject message isHtml attachments receivers
        = .crash
      ↔ receivers = none ∨ ∃ a ∈ attachments.getD [], a.Name = none)
    ∧ (∀ atts p, receivers = some [] →
        buildAttachments (attachments.getD []) = some atts →
        goAtoi credentials.Port = some p →
        SendSMTPEmailMessage credentials subject message isHtml attachments receivers
          = .dialAndSend credentials.Host p credentials.User credentials.Password
              ⟨credentials.Sender, [], subject,
                message.map (fun m => (if isHtml then "text/html" else "text/plain", m)),
                atts⟩) := by
  constructor
  · cases receivers with
    | none => simp [SendSMTPEmailMessage]
    | some rcvs =>
      cases attachments with
      | none =>
        cases hp : goAtoi credentials.Port <;> simp [SendSMTPEmailMessage, hp]
      | some l =>
        cases hb : buildAttachments l with
        | none =>
          simp only [SendSMTPEmailMessage, hb]
          simp [← buildAttachments_eq_none_iff, hb]
        | some atts =>
          cases hp : goAtoi credentials.Port <;>
            simp [SendSMTPEmailMessage, hb, hp, ← buildAttachments_eq_none_iff]
  · intro atts p hr hatts hport
    subst hr
    cases attachments with
    | none =>
      simp [buildAttachments] at hatts
      subst hatts
      simp [SendSMTPEmailMessage, buildAttachments, hport]
    | some l =>
      simp only [Option.getD] at hatts
      simp [SendSMTPEmailMessage, hatts, hport]

/-- Witness for C9: a nil receivers pointer crashes; an attachment
with a nil Name crashes; an empty (non-nil) recipient list reaches the
dial step with an empty To header. -/
theorem smtp_nil_deref_totality_witness :
    SendSMTPEmailMessage ⟨"h", "25", "u", "s", "pw", false⟩ none none false none none
      = .crash
    ∧ SendSMTPEmailMessage ⟨"h", "25", "u", "s", "pw", false⟩ none none false
        (some [⟨[7], none⟩]) (some ["a@b.example"]) = .crash
    ∧ SendSMTPEmailMessage ⟨"h", "25", "u", "s", "pw", false⟩ none none false none
        (some []) = .dialAndSend "h" 25 "u" "pw" ⟨"s", [], none, none, []⟩ :=
  ⟨(smtp_nil_deref_totality ⟨"h", "25", "u", "s", "pw", false⟩ none none false
      none none).1.mpr (Or.inl rfl),
   (smtp_nil_deref_totality ⟨"h", "25", "u", "s", "pw", false⟩ none none false
      (some [⟨[7], none⟩]) (some ["a@b.example"])).1.mpr
        (Or.inr ⟨⟨[7], none⟩, by simp⟩),
   (smtp_nil_deref_totality ⟨"h", "25", "u", "s", "pw", false⟩ none none false
      none (some [])).2 [] 25 rfl (by rfl) (by rfl)⟩
